import Mathlib

/-!
Verification of the signed-request pipeline of the TikTok API client
(src/src/index.ts). The data model and operations below are a shallow
embedding of the TypeScript source: request parameter mappings are
association lists with JavaScript object-spread update semantics, the
signing interceptor `signRequest` is a pure function over an explicit
environment carrying the two clock readings, the external signer delegate
and the client's device identifier, and fallible code returns `Except` or
`Option`.
-/

/-- Scalar parameter value as carried in an axios `params` object:
a string or a number. -/
inductive PVal where
  | str (s : String)
  | num (n : Int)
  deriving Repr, DecidableEq

/-- Request parameter mapping: association list of key/value pairs in
object insertion order (JavaScript objects have unique keys). -/
abbrev Params := List (String × PVal)

/-- First-match lookup of a key, matching JavaScript property access. -/
def lookupParam : Params → String → Option PVal
  | [], _ => none
  | (a, b) :: ps, k => if a = k then some b else lookupParam ps k

/-- Key membership test. -/
def hasKey (ps : Params) (k : String) : Bool :=
  ps.any (fun p => p.1 = k)

/-- Object-spread update `{ ...ps, k: v }` on a unique-key object: if `k`
is present its value is replaced in place (JavaScript keeps the original
key position), otherwise `(k, v)` is appended at the end. -/
def setKey : Params → String → PVal → Params
  | [], k, v => [(k, v)]
  | (a, b) :: ps, k, v => if a = k then (k, v) :: ps else (a, b) :: setKey ps k v

/-- Environment of one run of `signRequest`: the two `new Date().getTime()`
readings in epoch milliseconds (`t1` for the `ts` computation at line 392,
`t2` for `_rticket` at line 396), the external `signURL` delegate from
`this.config` (its resolved value on the success path), and
`this.request.defaults.params.device_id`. -/
structure SignEnv where
  t1 : Nat
  t2 : Nat
  signURL : String → Nat → String → String
  device_id : String

/-- Fields of the axios request configuration that the pipeline touches or
must leave intact; `extra` stands for all remaining configuration fields,
which the object spread at line 403 copies unchanged. -/
structure AxiosRequestConfig where
  method : String
  baseURL : String
  url : String
  headers : List (String × String)
  data : Option String
  params : Params
  paramsSerializer : Option (Params → String)
  withCredentials : Bool
  extra : List (String × String)

/-- One invocation of the external signer delegate with its three
arguments (line 400 of src/src/index.ts). -/
structure SignCall where
  url : String
  ts : Nat
  device_id : String

/-- Freshness injection of lines 392-397: the merged parameter object
`\x7b ...config.params, ts, _rticket \x7d` where `ts` is
`Math.floor(t1 / 1000)` and `_rticket` is the millisecond reading `t2`. -/
def freshParams (ps : Params) (t1 t2 : Nat) : Params :=
  setKey (setKey ps "ts" (.num (Int.ofNat (t1 / 1000)))) "_rticket" (.num (Int.ofNat t2))

/-- Signing interceptor `signRequest` (lines 387-407), instrumented with
the list of calls it makes to the external signer delegate. With no
`paramsSerializer` function it throws before doing anything else; otherwise
it injects the freshness fields, builds the canonical URL
`baseURL + url + ? + serializer(params)`, calls the signer once, and
returns the configuration rewritten to the signed URL with empty params. -/
def signRequestTraced (env : SignEnv) (config : AxiosRequestConfig) :
    Except String AxiosRequestConfig × List SignCall :=
  match config.paramsSerializer with
  | none => (.error "Missing required paramsSerializer function", [])
  | some serializer =>
    let ts := env.t1 / 1000
    let params := freshParams config.params env.t1 env.t2
    let url := config.baseURL ++ config.url ++ "?" ++ serializer params
    let signedURL := env.signURL url ts env.device_id
    (.ok { config with url := signedURL, params := [] }, [⟨url, ts, env.device_id⟩])

/-- Result of the signing interceptor (the fulfilled or rejected promise). -/
def signRequest (env : SignEnv) (config : AxiosRequestConfig) :
    Except String AxiosRequestConfig :=
  (signRequestTraced env config).1

/-- Static request parameters (`StaticRequestParams`): the fields the
constructor reads by name, plus `extra` for the remaining device/app
metadata fields, which the constructor only passes through as the default
`params` object. -/
structure StaticRequestParams where
  device_id : String
  manifest_version_code : String
  os_version : String
  language : String
  region : String
  device_type : String
  extra : Params := []

/-- Rendering of the static request parameters as the axios default
`params` object. -/
def staticToParams (p : StaticRequestParams) : Params :=
  [("device_id", .str p.device_id),
   ("manifest_version_code", .str p.manifest_version_code),
   ("os_version", .str p.os_version),
   ("language", .str p.language),
   ("region", .str p.region),
   ("device_type", .str p.device_type)] ++ p.extra

/-- Client configuration `TikTokAPIConfig` as supplied by the caller:
`signURL` is `some f` when the caller supplied a function and `none`
otherwise (the `typeof apiConfig.signURL !== 'function'` test); the other
recognized options are optional overrides of the built-in defaults. -/
structure TikTokAPIConfig where
  signURL : Option (String → Nat → String → String) := none
  baseURL : Option String := none
  host : Option String := none
  userAgent : Option String := none

/-- Resolved client configuration `this.config` after the spread
`\x7b baseURL, host, userAgent, ...apiConfig \x7d` at lines 29-36. -/
structure ResolvedConfig where
  signURL : String → Nat → String → String
  baseURL : String
  host : String
  userAgent : String

/-- Default user agent computed at lines 32-34. -/
def defaultUserAgent (p : StaticRequestParams) : String :=
  "com.zhiliaoapp.musically/" ++ p.manifest_version_code
    ++ " (Linux; U; Android " ++ p.os_version ++ "; " ++ p.language ++ "_" ++ p.region ++ ";"
    ++ " " ++ p.device_type ++ "; Build/NHG47Q; Cronet/58.0.2991.0)"

/-- Optional third constructor argument `requestConfig`, spread over the
computed axios defaults at line 52 (a present field overrides the
default). -/
structure RequestOverrides where
  paramsSerializer : Option (Params → String) := none
  baseURL : Option String := none
  headers : Option (List (String × String)) := none
  params : Option Params := none

/-- Client instance: the resolved configuration, the default request
parameters held in `this.request.defaults.params`, and the axios instance
defaults. -/
structure TikTokAPI where
  config : ResolvedConfig
  defaultParams : StaticRequestParams
  requestDefaults : AxiosRequestConfig

/-- Constructor of `TikTokAPI` (lines 24-57). `defaultSerializer` stands
for the imported `paramsSerializer(paramsOrder)` from src/params.ts, which
is outside the sources in scope and enters the constructor as an opaque
function. The `signURL` guard at lines 25-27 throws before the
configuration, cookie jar or request instance is built; otherwise the
resolved configuration and the axios defaults are assembled and the
signing interceptor is installed. -/
def TikTokAPI.create (defaultSerializer : Params → String)
    (reqParams : StaticRequestParams) (apiConfig : TikTokAPIConfig)
    (requestConfig : RequestOverrides) : Except String TikTokAPI :=
  match apiConfig.signURL with
  | none => .error "You must supply a signURL function to the TikTokAPI config"
  | some sign =>
    let resolved : ResolvedConfig :=
      { signURL := sign
        baseURL := apiConfig.baseURL.getD "https://api2.musical.ly/"
        host := apiConfig.host.getD "api2.musical.ly"
        userAgent := apiConfig.userAgent.getD (defaultUserAgent reqParams) }
    let defaults : AxiosRequestConfig :=
      { method := "get"
        baseURL := requestConfig.baseURL.getD resolved.baseURL
        url := ""
        headers := requestConfig.headers.getD
          [("host", resolved.host), ("connection", "keep-alive"),
           ("accept-encoding", "gzip"), ("user-agent", resolved.userAgent)]
        data := none
        params := requestConfig.params.getD (staticToParams reqParams)
        paramsSerializer := some (requestConfig.paramsSerializer.getD defaultSerializer)
        withCredentials := true
        extra := [] }
    .ok { config := resolved, defaultParams := reqParams, requestDefaults := defaults }

/-- Signing environment of one interceptor run on a given client:
`signURL` is read from `this.config` and `device_id` from
`this.request.defaults.params.device_id` (line 400); `t1` and `t2` are the
two clock readings of that run. -/
def clientSignEnv (client : TikTokAPI) (t1 t2 : Nat) : SignEnv :=
  { t1 := t1, t2 := t2
    signURL := client.config.signURL
    device_id := client.defaultParams.device_id }

/-- Structured value produced by big-integer-safe JSON decoding.
Integer literals in the safe range decode to `jint`; integer literals
outside it decode to `jstr` of their original base-10 text (the
`storeAsString` mode); number literals with a fraction or exponent keep
their raw text in `jfloat` (their numeric value plays no role here). -/
inductive JVal where
  | jnull
  | jbool (b : Bool)
  | jint (n : Int)
  | jfloat (raw : String)
  | jstr (s : String)
  | jarr (items : List JVal)
  | jobj (members : List (String × JVal))
  deriving Repr

/-- Value of a base-10 digit sequence. -/
def digitsToNat (ds : List Char) : Nat :=
  ds.foldl (fun a c => a * 10 + (c.toNat - 48)) 0

/-- Largest integer exactly representable by the platform's native number
type (IEEE 754 double): 2 to the 53rd minus 1. -/
def maxSafeInteger : Nat := 9007199254740991

/-- Modelled from the spec: the integer-literal rule of the json-bigint
library invoked with `storeAsString: true` at line 378 (the library source
is not under src/). Every integer literal is checked against the exact
range representable without precision loss by the platform's native
numeric type; a literal outside that range is decoded as its original
base-10 string, any other as a numeric value. -/
def decodeIntLit (neg : Bool) (ds : List Char) : JVal :=
  let v := digitsToNat ds
  if v ≤ maxSafeInteger then .jint (if neg then -(v : Int) else (v : Int))
  else .jstr ((if neg then "-" else "") ++ String.mk ds)

/-- JSON whitespace skipping. -/
def skipWs : List Char → List Char
  | c :: cs =>
    if c = ' ' ∨ c = Char.ofNat 10 ∨ c = Char.ofNat 9 ∨ c = Char.ofNat 13
    then skipWs cs else c :: cs
  | [] => []

/-- Body of a JSON string literal after the opening quote: accumulates
characters up to the closing quote, resolving the standard escapes. -/
def parseStringBody : List Char → Option (String × List Char)
  | [] => none
  | c :: cs =>
    if c = Char.ofNat 34 then some ("", cs)
    else if c = Char.ofNat 92 then
      match cs with
      | [] => none
      | e :: cs' =>
        let ec : Option Char :=
          if e = Char.ofNat 34 then some (Char.ofNat 34)
          else if e = Char.ofNat 92 then some (Char.ofNat 92)
          else if e = '/' then some '/'
          else if e = 'n' then some (Char.ofNat 10)
          else if e = 't' then some (Char.ofNat 9)
          else if e = 'r' then some (Char.ofNat 13)
          else if e = 'b' then some (Char.ofNat 8)
          else if e = 'f' then some (Char.ofNat 12)
          else none
        match ec with
        | none => none
        | some ch => (parseStringBody cs').map (fun r => (String.mk [ch] ++ r.1, r.2))
    else (parseStringBody cs).map (fun r => (String.mk [c] ++ r.1, r.2))

/-- Exponent part of a number literal (after `e` or `E`): optional sign and
at least one digit; returns the consumed text. -/
def parseExponentPart (cs : List Char) : Option (String × List Char) :=
  let (sign, rest) :=
    match cs with
    | '+' :: r => ("+", r)
    | '-' :: r => ("-", r)
    | r => ("", r)
  let ds := rest.takeWhile Char.isDigit
  if ds.isEmpty then none
  else some (sign ++ String.mk ds, rest.dropWhile Char.isDigit)

/-- Modelled from the spec: number-literal decoding of the json-bigint
parse (library source not under src/). An integer literal (no fraction, no
exponent) goes through the big-integer-safe rule `decodeIntLit`; a literal
with a fraction or exponent decodes as a native floating value, kept here
as its raw text. Leading zeros are rejected as in standard JSON. -/
def parseNumber (input : List Char) : Option (JVal × List Char) :=
  let (neg, rest) :=
    match input with
    | '-' :: cs => (true, cs)
    | cs => (false, cs)
  let ds := rest.takeWhile Char.isDigit
  let rest1 := rest.dropWhile Char.isDigit
  if ds.isEmpty then none
  else if 1 < ds.length ∧ ds.headD '0' = '0' then none
  else
    match rest1 with
    | '.' :: cs =>
      let fs := cs.takeWhile Char.isDigit
      let rest2 := cs.dropWhile Char.isDigit
      if fs.isEmpty then none
      else
        match rest2 with
        | 'e' :: cs' =>
          (parseExponentPart cs').map fun r =>
            (.jfloat ((if neg then "-" else "") ++ String.mk ds ++ "." ++ String.mk fs
              ++ "e" ++ r.1), r.2)
        | 'E' :: cs' =>
          (parseExponentPart cs').map fun r =>
            (.jfloat ((if neg then "-" else "") ++ String.mk ds ++ "." ++ String.mk fs
              ++ "E" ++ r.1), r.2)
        | _ =>
          some (.jfloat ((if neg then "-" else "") ++ String.mk ds ++ "." ++ String.mk fs),
            rest2)
    | 'e' :: cs' =>
      (parseExponentPart cs').map fun r =>
        (.jfloat ((if neg then "-" else "") ++ String.mk ds ++ "e" ++ r.1), r.2)
    | 'E' :: cs' =>
      (parseExponentPart cs').map fun r =>
        (.jfloat ((if neg then "-" else "") ++ String.mk ds ++ "E" ++ r.1), r.2)
    | _ => some (decodeIntLit neg ds, rest1)

mutual

/-- Modelled from the spec: recursive-descent JSON value grammar of the
json-bigint parse (library source not under src/), fuel-indexed for
termination (nesting depth is bounded by the input length). -/
def parseValue : Nat → List Char → Option (JVal × List Char)
  | 0, _ => none
  | fuel + 1, input =>
    match skipWs input with
    | [] => none
    | c :: cs =>
      if c = 'n' then
        match cs with
        | 'u' :: 'l' :: 'l' :: r => some (.jnull, r)
        | _ => none
      else if c = 't' then
        match cs with
        | 'r' :: 'u' :: 'e' :: r => some (.jbool true, r)
        | _ => none
      else if c = 'f' then
        match cs with
        | 'a' :: 'l' :: 's' :: 'e' :: r => some (.jbool false, r)
        | _ => none
      else if c = Char.ofNat 34 then
        (parseStringBody cs).map fun r => (.jstr r.1, r.2)
      else if c = Char.ofNat 123 then
        parseObjectBody fuel (skipWs cs)
      else if c = '[' then
        parseArrayBody fuel (skipWs cs)
      else if c = '-' ∨ c.isDigit then
        parseNumber (c :: cs)
      else none

/-- Object body after the opening brace (whitespace already skipped). -/
def parseObjectBody : Nat → List Char → Option (JVal × List Char)
  | 0, _ => none
  | fuel + 1, input =>
    match input with
    | c :: r =>
      if c = Char.ofNat 125 then some (.jobj [], r)
      else (parseMembers fuel input).map fun r => (.jobj r.1, r.2)
    | [] => none

/-- Comma-separated object members up to the closing brace. -/
def parseMembers : Nat → List Char → Option (List (String × JVal) × List Char)
  | 0, _ => none
  | fuel + 1, input =>
    match input with
    | c :: cs =>
      if c = Char.ofNat 34 then
        match parseStringBody cs with
        | none => none
        | some (key, r1) =>
          match skipWs r1 with
          | ':' :: r2 =>
            match parseValue fuel r2 with
            | none => none
            | some (v, r3) =>
              match skipWs r3 with
              | ',' :: r4 =>
                (parseMembers fuel (skipWs r4)).map fun r => ((key, v) :: r.1, r.2)
              | c' :: r4 =>
                if c' = Char.ofNat 125 then some ([(key, v)], r4) else none
              | [] => none
          | _ => none
      else none
    | [] => none

/-- Array body after the opening bracket (whitespace already skipped). -/
def parseArrayBody : Nat → List Char → Option (JVal × List Char)
  | 0, _ => none
  | fuel + 1, input =>
    match input with
    | ']' :: r => some (.jarr [], r)
    | _ => (parseItems fuel input).map fun r => (.jarr r.1, r.2)

/-- Comma-separated array items up to the closing bracket. -/
def parseItems : Nat → List Char → Option (List JVal × List Char)
  | 0, _ => none
  | fuel + 1, input =>
    match parseValue fuel input with
    | none => none
    | some (v, r1) =>
      match skipWs r1 with
      | ',' :: r2 => (parseItems fuel r2).map fun r => (v :: r.1, r.2)
      | ']' :: r2 => some ([v], r2)
      | _ => none

end

/-- Modelled from the spec: `JSONBig(\x7b storeAsString: true \x7d).parse`
applied to the whole body (library source not under src/). Returns `none`
on malformed input, where the library throws. -/
def parseJSON (s : String) : Option JVal :=
  match parseValue (4 * (s.length + 1)) s.data with
  | some (v, r) => if (skipWs r).isEmpty then some v else none
  | none => none

/-- Decoded body of `transformResponse`: either the raw body returned
unchanged (empty input) or the parsed structured value. -/
inductive TransformResult where
  | raw (s : String)
  | parsed (v : JVal)
  deriving Repr

/-- Response transform `transformResponse` (lines 374-379): a falsy or
zero-length body is returned unchanged without any parse; otherwise the
body is parsed with the big-integer-safe JSON parser, `none` standing for
the parse error the library throws on malformed input. -/
def transformResponse (data : String) : Option TransformResult :=
  if data.length = 0 then some (.raw data)
  else (parseJSON data).map .parsed

/-- Concrete serializer used in sample instantiations. -/
def sampleSerializer (ps : Params) : String :=
  String.intercalate "&" (ps.map Prod.fst)

/-- Concrete signing environment used in sample instantiations. -/
def sampleEnv : SignEnv :=
  { t1 := 5000, t2 := 5001
    signURL := fun u _ d => u ++ "&sig=" ++ d
    device_id := "dev123" }

/-- Concrete request configuration used in sample instantiations. -/
def sampleConfig : AxiosRequestConfig :=
  { method := "get", baseURL := "b/", url := "path"
    headers := [("host", "h")], data := none
    params := [("user_id", .str "42")]
    paramsSerializer := some sampleSerializer
    withCredentials := true, extra := [("k", "v")] }

/-- Concrete static request parameters used in sample instantiations. -/
def sampleReqParams : StaticRequestParams :=
  { device_id := "dev123", manifest_version_code := "2018080704"
    os_version := "7.1.2", language := "en", region := "US"
    device_type := "Pixel" }

/-- Concrete client instance used in sample instantiations. -/
def sampleClient : TikTokAPI :=
  { config :=
      { signURL := fun u _ d => u ++ "&sig=" ++ d
        baseURL := "https://api2.musical.ly/", host := "api2.musical.ly"
        userAgent := "ua" }
    defaultParams := sampleReqParams
    requestDefaults := sampleConfig }

theorem lookupParam_setKey_self (ps : Params) (k : String) (v : PVal) :
    lookupParam (setKey ps k v) k = some v := by
  induction ps with
  | nil => simp [setKey, lookupParam]
  | cons p ps ih =>
    obtain ⟨a, b⟩ := p
    by_cases hak : a = k
    · simp [setKey, hak, lookupParam]
    · simp [setKey, hak, lookupParam, ih]

theorem lookupParam_setKey_other (ps : Params) (k k' : String) (v : PVal) (h : k ≠ k') :
    lookupParam (setKey ps k' v) k = lookupParam ps k := by
  induction ps with
  | nil => simp [setKey, lookupParam, Ne.symm h]
  | cons p ps ih =>
    obtain ⟨a, b⟩ := p
    by_cases hak : a = k'
    · subst hak
      simp [setKey, lookupParam, Ne.symm h]
    · simp [setKey, hak, lookupParam, ih]

theorem freshParams_lookup_ts (ps : Params) (t1 t2 : Nat) :
    lookupParam (freshParams ps t1 t2) "ts" = some (.num (Int.ofNat (t1 / 1000))) := by
  unfold freshParams
  rw [lookupParam_setKey_other _ _ _ _ (by decide)]
  exact lookupParam_setKey_self ps "ts" _

theorem freshParams_lookup_rticket (ps : Params) (t1 t2 : Nat) :
    lookupParam (freshParams ps t1 t2) "_rticket" = some (.num (Int.ofNat t2)) := by
  unfold freshParams
  exact lookupParam_setKey_self _ "_rticket" _

theorem signRequestTraced_some (env : SignEnv) (config : AxiosRequestConfig)
    (f : Params → String) (hs : config.paramsSerializer = some f) :
    signRequestTraced env config =
      (.ok { config with
              url := env.signURL
                (config.baseURL ++ config.url ++ "?" ++ f (freshParams config.params env.t1 env.t2))
                (env.t1 / 1000) env.device_id
              params := [] },
       [⟨config.baseURL ++ config.url ++ "?" ++ f (freshParams config.params env.t1 env.t2),
         env.t1 / 1000, env.device_id⟩]) := by
  unfold signRequestTraced
  rw [hs]

/-- C1: for every request configuration that the signing interceptor
processes successfully, the returned configuration's `params` field is the
empty mapping and its `url` field is exactly the string returned by the
external `signURL` delegate (applied to the canonical URL, the timestamp
and the device identifier). -/
theorem signRequest_completeness (env : SignEnv) (config cfg' : AxiosRequestConfig)
    (h : signRequest env config = .ok cfg') :
    cfg'.params = [] ∧
    ∃ f, config.paramsSerializer = some f ∧
      cfg'.url = env.signURL
        (config.baseURL ++ config.url ++ "?" ++ f (freshParams config.params env.t1 env.t2))
        (env.t1 / 1000) env.device_id := by
  unfold signRequest at h
  cases hs : config.paramsSerializer with
  | none =>
    unfold signRequestTraced at h
    rw [hs] at h
    exact absurd h (by simp)
  | some f =>
    rw [signRequestTraced_some env config f hs] at h
    injection h with h
    subst h
    exact ⟨rfl, f, rfl, rfl⟩

theorem signRequest_completeness_witness :
    ({ sampleConfig with
        url := sampleEnv.signURL
          ("b/" ++ "path" ++ "?" ++ sampleSerializer (freshParams sampleConfig.params 5000 5001))
          5 "dev123"
        params := [] } : AxiosRequestConfig).params = [] ∧
    ∃ f, sampleConfig.paramsSerializer = some f ∧
      ({ sampleConfig with
          url := sampleEnv.signURL
            ("b/" ++ "path" ++ "?" ++ sampleSerializer (freshParams sampleConfig.params 5000 5001))
            5 "dev123"
          params := [] } : AxiosRequestConfig).url
        = sampleEnv.signURL
            (sampleConfig.baseURL ++ sampleConfig.url ++ "?"
              ++ f (freshParams sampleConfig.params sampleEnv.t1 sampleEnv.t2))
            (sampleEnv.t1 / 1000) sampleEnv.device_id :=
  signRequest_completeness sampleEnv sampleConfig _ (by rfl)

/-- C2: the constructor throws the configuration error exactly when
`apiConfig.signURL` is not a function, before building any part of the
client (no client value is produced); with a function supplied it
constructs the client without this error. -/
theorem constructor_signURL_gate (ser : Params → String) (reqParams : StaticRequestParams)
    (apiConfig : TikTokAPIConfig) (override : RequestOverrides) :
    (apiConfig.signURL = none →
      TikTokAPI.create ser reqParams apiConfig override
        = .error "You must supply a signURL function to the TikTokAPI config") ∧
    (∀ f, apiConfig.signURL = some f →
      ∃ client, TikTokAPI.create ser reqParams apiConfig override = .ok client) := by
  constructor
  · intro hnone
    unfold TikTokAPI.create
    rw [hnone]
  · intro f hsome
    exact ⟨_, by unfold TikTokAPI.create; rw [hsome]⟩

theorem constructor_signURL_gate_witness :
    TikTokAPI.create sampleSerializer sampleReqParams {} {}
      = .error "You must supply a signURL function to the TikTokAPI config" :=
  (constructor_signURL_gate sampleSerializer sampleReqParams {} {}).1 rfl

/-- C3: for every request reaching the signer, the merged parameter set
carries `ts` equal to the floor of the epoch-millisecond reading divided by
1000 and `_rticket` equal to the epoch-millisecond reading, and it is this
freshness-injected parameter set that the serializer renders into the
canonical URL handed to the signer. -/
theorem freshness_injection (env : SignEnv) (config : AxiosRequestConfig)
    (f : Params → String) (hs : config.paramsSerializer = some f) :
    lookupParam (freshParams config.params env.t1 env.t2) "ts"
        = some (.num (Int.ofNat (env.t1 / 1000)))
    ∧ lookupParam (freshParams config.params env.t1 env.t2) "_rticket"
        = some (.num (Int.ofNat env.t2))
    ∧ (signRequestTraced env config).2
        = [⟨config.baseURL ++ config.url ++ "?" ++ f (freshParams config.params env.t1 env.t2),
            env.t1 / 1000, env.device_id⟩] := by
  refine ⟨freshParams_lookup_ts _ _ _, freshParams_lookup_rticket _ _ _, ?_⟩
  rw [signRequestTraced_some env config f hs]

theorem freshness_injection_witness :
    lookupParam (freshParams sampleConfig.params sampleEnv.t1 sampleEnv.t2) "ts"
        = some (.num (Int.ofNat (sampleEnv.t1 / 1000)))
    ∧ lookupParam (freshParams sampleConfig.params sampleEnv.t1 sampleEnv.t2) "_rticket"
        = some (.num (Int.ofNat sampleEnv.t2))
    ∧ (signRequestTraced sampleEnv sampleConfig).2
        = [⟨sampleConfig.baseURL ++ sampleConfig.url ++ "?"
            ++ sampleSerializer (freshParams sampleConfig.params sampleEnv.t1 sampleEnv.t2),
            sampleEnv.t1 / 1000, sampleEnv.device_id⟩] :=
  freshness_injection sampleEnv sampleConfig sampleSerializer (by rfl)

/-- C4: for every request of a client carrying a serializer, the external
signer delegate is invoked exactly once (the call trace is a singleton),
with the canonical URL `baseURL + path + ? + serialized fresh params` as
first argument, the second-resolution timestamp as second argument, and
the client's `device_id` from the default request parameters as third
argument. -/
theorem signer_called_once (client : TikTokAPI) (t1 t2 : Nat)
    (config : AxiosRequestConfig) (f : Params → String)
    (hs : config.paramsSerializer = some f) :
    (signRequestTraced (clientSignEnv client t1 t2) config).2
      = [⟨config.baseURL ++ config.url ++ "?" ++ f (freshParams config.params t1 t2),
          t1 / 1000, client.defaultParams.device_id⟩] := by
  rw [signRequestTraced_some (clientSignEnv client t1 t2) config f hs]
  rfl

theorem signer_called_once_witness :
    (signRequestTraced (clientSignEnv sampleClient 5000 5001) sampleConfig).2
      = [⟨sampleConfig.baseURL ++ sampleConfig.url ++ "?"
          ++ sampleSerializer (freshParams sampleConfig.params 5000 5001),
          5000 / 1000, sampleClient.defaultParams.device_id⟩] :=
  signer_called_once sampleClient 5000 5001 sampleConfig sampleSerializer (by rfl)

/-- C5: a request configuration without a `paramsSerializer` function makes
the signing interceptor fail with the configuration error immediately: the
result is the error rejection, the signer call trace is empty, and no
rewritten request configuration is produced. -/
theorem missing_serializer_fatal (env : SignEnv) (config : AxiosRequestConfig)
    (hs : config.paramsSerializer = none) :
    signRequestTraced env config
      = (.error "Missing required paramsSerializer function", []) := by
  unfold signRequestTraced
  rw [hs]

theorem missing_serializer_fatal_witness :
    signRequestTraced sampleEnv { sampleConfig with paramsSerializer := none }
      = (.error "Missing required paramsSerializer function", []) :=
  missing_serializer_fatal sampleEnv { sampleConfig with paramsSerializer := none } (by rfl)

/-- C6: `transformResponse` decodes the object with the 18-digit integer
literal to the exact base-10 string and the object with the small literal
to the integer, and in general the big-integer-safe rule maps every
integer literal inside the safe range to its numeric value and every
integer literal outside it to its original base-10 text. -/
theorem big_integer_decoding :
    transformResponse "\x7b\"id\": 123456789012345678\x7d"
        = some (.parsed (.jobj [("id", .jstr "123456789012345678")]))
    ∧ transformResponse "\x7b\"count\": 42\x7d"
        = some (.parsed (.jobj [("count", .jint 42)]))
    ∧ ∀ (neg : Bool) (ds : List Char), ds ≠ [] → ds.all Char.isDigit →
        (digitsToNat ds ≤ maxSafeInteger →
          decodeIntLit neg ds
            = .jint (if neg then -(digitsToNat ds : Int) else (digitsToNat ds : Int)))
        ∧ (maxSafeInteger < digitsToNat ds →
          decodeIntLit neg ds
            = .jstr ((if neg then "-" else "") ++ String.mk ds)) := by
  refine ⟨by rfl, by rfl, ?_⟩
  intro neg ds _ _
  constructor
  · intro hle
    unfold decodeIntLit
    rw [if_pos hle]
  · intro hlt
    unfold decodeIntLit
    rw [if_neg (Nat.not_le.mpr hlt)]

theorem big_integer_decoding_witness :
    decodeIntLit false ['4', '2'] = .jint 42
    ∧ decodeIntLit false
        ['1', '2', '3', '4', '5', '6', '7', '8', '9', '0', '1', '2', '3', '4', '5', '6', '7', '8']
      = .jstr "123456789012345678" := by
  constructor
  · have h := (big_integer_decoding.2.2 false ['4', '2'] (by decide) (by decide)).1 (by decide)
    simpa using h
  · have h := (big_integer_decoding.2.2 false
      ['1', '2', '3', '4', '5', '6', '7', '8', '9', '0', '1', '2', '3', '4', '5', '6', '7', '8']
      (by decide) (by decide)).2 (by decide)
    simpa using h

/-- C7: an empty response body is returned unchanged by
`transformResponse` with no parse attempted, hence no parse error. -/
theorem empty_body_passthrough (data : String) (h : data.length = 0) :
    transformResponse data = some (.raw data) := by
  unfold transformResponse
  rw [if_pos h]

theorem empty_body_passthrough_witness :
    transformResponse "" = some (.raw "") :=
  empty_body_passthrough "" (by rfl)

/-- C8: for two requests whose signing steps read the wall clock in
non-decreasing order, the `ts` value injected into the second request's
parameters is greater than or equal to the one injected into the first. -/
theorem sequential_ts_monotone (a1 a2 b1 b2 : Nat) (psA psB : Params) (x y : Int)
    (hclock : a1 ≤ b1)
    (hx : lookupParam (freshParams psA a1 a2) "ts" = some (.num x))
    (hy : lookupParam (freshParams psB b1 b2) "ts" = some (.num y)) :
    x ≤ y := by
  rw [freshParams_lookup_ts] at hx hy
  have hx' : x = Int.ofNat (a1 / 1000) := by
    have := Option.some.inj hx
    exact (PVal.num.inj this).symm
  have hy' : y = Int.ofNat (b1 / 1000) := by
    have := Option.some.inj hy
    exact (PVal.num.inj this).symm
  rw [hx', hy']
  exact Int.ofNat_le.mpr (Nat.div_le_div_right hclock)

theorem sequential_ts_monotone_witness :
    lookupParam (freshParams [] 5000 0) "ts" = some (.num 5)
    ∧ lookupParam (freshParams [] 6500 0) "ts" = some (.num 6)
    ∧ (5 : Int) ≤ 6 :=
  ⟨by decide, by decide,
   sequential_ts_monotone 5000 0 6500 0 [] [] 5 6 (by decide) (by decide) (by decide)⟩

/-- C9: when the caller's parameter object already carries `ts` or
`_rticket`, the merged parameter set that the serializer renders into the
canonical URL maps those keys to the freshly generated timestamp and
nonce, not to the caller-supplied values. -/
theorem caller_freshness_override (env : SignEnv) (config : AxiosRequestConfig)
    (f : Params → String) (hs : config.paramsSerializer = some f)
    (_hk : hasKey config.params "ts" = true ∨ hasKey config.params "_rticket" = true) :
    lookupParam (freshParams config.params env.t1 env.t2) "ts"
        = some (.num (Int.ofNat (env.t1 / 1000)))
    ∧ lookupParam (freshParams config.params env.t1 env.t2) "_rticket"
        = some (.num (Int.ofNat env.t2))
    ∧ (signRequestTraced env config).2
        = [⟨config.baseURL ++ config.url ++ "?" ++ f (freshParams config.params env.t1 env.t2),
            env.t1 / 1000, env.device_id⟩] := by
  refine ⟨freshParams_lookup_ts _ _ _, freshParams_lookup_rticket _ _ _, ?_⟩
  rw [signRequestTraced_some env config f hs]

theorem caller_freshness_override_witness :
    lookupParam
        (freshParams ({ sampleConfig with
            params := [("ts", .num 1), ("_rticket", .num 2)] } : AxiosRequestConfig).params
          sampleEnv.t1 sampleEnv.t2) "ts"
      = some (.num (Int.ofNat (sampleEnv.t1 / 1000)))
    ∧ lookupParam
        (freshParams ({ sampleConfig with
            params := [("ts", .num 1), ("_rticket", .num 2)] } : AxiosRequestConfig).params
          sampleEnv.t1 sampleEnv.t2) "_rticket"
      = some (.num (Int.ofNat sampleEnv.t2)) :=
  have h := caller_freshness_override sampleEnv
    { sampleConfig with params := [("ts", .num 1), ("_rticket", .num 2)] }
    sampleSerializer (by rfl) (Or.inl (by decide))
  ⟨h.1, h.2.1⟩

/-- C10: the signing interceptor rewrites only the `url` and `params`
fields: on success every other field of the returned configuration equals
its value in the input configuration. -/
theorem signRequest_frame (env : SignEnv) (config cfg' : AxiosRequestConfig)
    (h : signRequest env config = .ok cfg') :
    cfg'.method = config.method ∧ cfg'.baseURL = config.baseURL
    ∧ cfg'.headers = config.headers ∧ cfg'.data = config.data
    ∧ cfg'.paramsSerializer = config.paramsSerializer
    ∧ cfg'.withCredentials = config.withCredentials
    ∧ cfg'.extra = config.extra := by
  unfold signRequest at h
  cases hs : config.paramsSerializer with
  | none =>
    unfold signRequestTraced at h
    rw [hs] at h
    exact absurd h (by simp)
  | some f =>
    rw [signRequestTraced_some env config f hs] at h
    injection h with h
    subst h
    exact ⟨rfl, rfl, rfl, rfl, hs, rfl, rfl⟩

theorem signRequest_frame_witness :
    ({ sampleConfig with
        url := sampleEnv.signURL
          ("b/" ++ "path" ++ "?" ++ sampleSerializer (freshParams sampleConfig.params 5000 5001))
          5 "dev123"
        params := [] } : AxiosRequestConfig).method = sampleConfig.method
    ∧ ({ sampleConfig with
        url := sampleEnv.signURL
          ("b/" ++ "path" ++ "?" ++ sampleSerializer (freshParams sampleConfig.params 5000 5001))
          5 "dev123"
        params := [] } : AxiosRequestConfig).baseURL = sampleConfig.baseURL
    ∧ ({ sampleConfig with
        url := sampleEnv.signURL
          ("b/" ++ "path" ++ "?" ++ sampleSerializer (freshParams sampleConfig.params 5000 5001))
          5 "dev123"
        params := [] } : AxiosRequestConfig).headers = sampleConfig.headers
    ∧ ({ sampleConfig with
        url := sampleEnv.signURL
          ("b/" ++ "path" ++ "?" ++ sampleSerializer (freshParams sampleConfig.params 5000 5001))
          5 "dev123"
        params := [] } : AxiosRequestConfig).data = sampleConfig.data
    ∧ ({ sampleConfig with
        url := sampleEnv.signURL
          ("b/" ++ "path" ++ "?" ++ sampleSerializer (freshParams sampleConfig.params 5000 5001))
          5 "dev123"
        params := [] } : AxiosRequestConfig).paramsSerializer = sampleConfig.paramsSerializer
    ∧ ({ sampleConfig with
        url := sampleEnv.signURL
          ("b/" ++ "path" ++ "?" ++ sampleSerializer (freshParams sampleConfig.params 5000 5001))
          5 "dev123"
        params := [] } : AxiosRequestConfig).withCredentials = sampleConfig.withCredentials
    ∧ ({ sampleConfig with
        url := sampleEnv.signURL
          ("b/" ++ "path" ++ "?" ++ sampleSerializer (freshParams sampleConfig.params 5000 5001))
          5 "dev123"
        params := [] } : AxiosRequestConfig).extra = sampleConfig.extra :=
  signRequest_frame sampleEnv sampleConfig _ (by rfl)
